import Mathlib

/-!
Shallow embedding of `engagement_updater/handler.py` from
OS2mo-amqp-trigger-employee-engagement-updater.

External I/O (the GraphQL query responses and the model-client writes) is made
explicit: the two query responses are inputs, writes are collected in a trace,
and Python exceptions that escape the handler (`IndexError` from
`assoc.employee[0]`, `ValueError` from the association-type lookup) are the
`Except` error channel.  Pydantic validation of the snapshot is the function
`parseResult` from a raw response type whose lists and optional fields are
unconstrained; the parsed types mirror the pydantic model classes.
-/

namespace EngagementUpdater

/-- UUIDs are abstract identifiers; only equality matters. -/
abbrev UUID := Nat

/-- A `datetime.datetime`: a day plus a sub-day part, so that
`strftime("%Y-%m-%d")` (day truncation) is observable. -/
structure DateTime where
  day : Nat
  secondsOfDay : Nat
deriving DecidableEq, Repr, Inhabited

/-- `dt.strftime("%Y-%m-%d")`: truncation of a datetime to its day. -/
def formatDay (dt : DateTime) : Nat := dt.day

/-- `ramodels.mo.Validity`: a from-date and an optional to-date. -/
structure Validity where
  from_date : DateTime
  to_date : Option DateTime
deriving DecidableEq, Repr, Inhabited

/-! ## Parsed snapshot model (the pydantic classes of handler.py) -/

/-- pydantic `_Employee`: `uuid: UUID`. -/
structure _Employee where
  uuid : UUID
deriving DecidableEq, Repr, Inhabited

/-- pydantic `_Association`: `employee: list[_Employee]` (no cardinality
constraint in the source). -/
structure _Association where
  employee : List _Employee
deriving DecidableEq, Repr, Inhabited

/-- pydantic `_OrgUnit`: `uuid`, `associations: list[_Association]`
(`min_items=0`, so any list). -/
structure _OrgUnit where
  uuid : UUID
  associations : List _Association
deriving DecidableEq, Repr, Inhabited

/-- pydantic `_OrgUnitList`: `org_units: list[_OrgUnit]`. -/
structure _OrgUnitList where
  org_units : List _OrgUnit
deriving DecidableEq, Repr, Inhabited

/-- pydantic `_OrgUnitWithRelatedUnits`: `uuid`,
`related_units: list[_OrgUnitList]` (`min_items=1, max_items=1`, checked at
parse time), `associations: list[_Association] | None`. -/
structure _OrgUnitWithRelatedUnits where
  uuid : UUID
  related_units : List _OrgUnitList
  associations : Option (List _Association)
deriving DecidableEq, Repr, Inhabited

/-- pydantic `_Engagement`: `org_unit` list (`min_items=1, max_items=1`,
checked at parse time), scalar fields, required `primary_uuid`. -/
structure _Engagement where
  org_units : List _OrgUnitWithRelatedUnits
  job_function_uuid : UUID
  engagement_type_uuid : UUID
  primary_uuid : UUID
  user_key : String
  validity : Validity
deriving DecidableEq, Repr, Inhabited

/-- pydantic `_EngagementList`: `objects: list[_Engagement]`
(`min_items=1, max_items=1`). -/
structure _EngagementList where
  objects : List _Engagement
deriving DecidableEq, Repr, Inhabited

/-- pydantic `_Result`: `engagements: list[_EngagementList]`
(`min_items=1, max_items=1`). -/
structure _Result where
  engagements : List _EngagementList
deriving DecidableEq, Repr, Inhabited

/-! ## Raw query response (before pydantic validation)

Only the places where pydantic validation of `_Result` can fail are raw:
the three exact-cardinality lists and the required `primary_uuid` scalar.
Everything below `_OrgUnitWithRelatedUnits` carries no pydantic constraint,
so those layers reuse the parsed types directly. -/

/-- Raw `org_unit` element: `related_units` not yet cardinality-checked,
`primary` layer of the engagement not yet checked. -/
structure RawOrgUnitWithRelatedUnits where
  uuid : UUID
  related_units : List _OrgUnitList
  associations : Option (List _Association)
deriving DecidableEq, Repr, Inhabited

/-- Raw engagement object: `org_unit` not yet cardinality-checked,
`primary_uuid` possibly null/absent (`none`). -/
structure RawEngagement where
  org_unit : List RawOrgUnitWithRelatedUnits
  job_function_uuid : UUID
  engagement_type_uuid : UUID
  primary_uuid : Option UUID
  user_key : String
  validity : Validity
deriving DecidableEq, Repr, Inhabited

/-- Raw `engagements` element: `objects` not yet cardinality-checked. -/
structure RawEngagementList where
  objects : List RawEngagement
deriving DecidableEq, Repr, Inhabited

/-- Raw GraphQL response for `RelatedOrgUnitQuery`. -/
structure RawResult where
  engagements : List RawEngagementList
deriving DecidableEq, Repr, Inhabited

/-- Validation of one `org_unit` element: `related_units` must contain
exactly one wrapper (`min_items=1, max_items=1`). -/
def parseOrgUnit (raw : RawOrgUnitWithRelatedUnits) :
    Except Unit _OrgUnitWithRelatedUnits :=
  match raw.related_units with
  | [rl] => .ok ⟨raw.uuid, [rl], raw.associations⟩
  | _ => .error ()

/-- Validation of one engagement object: exactly one `org_unit`, and a
present, non-null `primary_uuid`. -/
def parseEngagement (raw : RawEngagement) : Except Unit _Engagement :=
  match raw.org_unit, raw.primary_uuid with
  | [ou], some p =>
    match parseOrgUnit ou with
    | .ok pou =>
      .ok ⟨[pou], raw.job_function_uuid, raw.engagement_type_uuid, p,
           raw.user_key, raw.validity⟩
    | .error e => .error e
  | _, _ => .error ()

/-- `_Result.parse_obj`: exactly one `engagements` element holding exactly
one engagement object, recursively validated. -/
def parseResult (raw : RawResult) : Except Unit _Result :=
  match raw.engagements with
  | [el] =>
    match el.objects with
    | [rawEng] =>
      match parseEngagement rawEng with
      | .ok e => .ok ⟨[⟨[e]⟩]⟩
      | .error er => .error er
    | _ => .error ()
  | _ => .error ()

/-! ## Handler-level types -/

/-- `ramqp.mo.models.RequestType` (the routing-key request kinds). -/
inductive RequestType where
  | CREATE
  | EDIT
  | TERMINATE
deriving DecidableEq, Repr

/-- `ramqp.mo.models.PayloadType`: employee uuid, engagement (object) uuid,
event time. -/
structure PayloadType where
  uuid : UUID
  object_uuid : UUID
  time : DateTime
deriving DecidableEq, Repr, Inhabited

/-- The two settings fields the handler reads. -/
structure Settings where
  dry_run : Bool
  association_type : String
deriving DecidableEq, Repr, Inhabited

/-- Write payload produced by `Association.from_simplified_fields`. -/
structure Association where
  person_uuid : UUID
  org_unit_uuid : UUID
  association_type_uuid : UUID
  from_date : Nat
deriving DecidableEq, Repr, Inhabited

/-- Write payload produced by `Engagement.from_simplified_fields`. -/
structure Engagement where
  uuid : UUID
  person_uuid : UUID
  org_unit_uuid : UUID
  job_function_uuid : UUID
  engagement_type_uuid : UUID
  primary_uuid : UUID
  user_key : String
  from_date : Nat
deriving DecidableEq, Repr, Inhabited

/-- One call to the model client: `upload_object(association)` or
`upload_object(engagement, edit=True)`. -/
inductive WriteCall where
  | uploadAssociation (a : Association)
  | uploadEngagementEdit (e : Engagement)
deriving DecidableEq, Repr

/-- `ResultType.Action` from handler.py. -/
inductive Action where
  | BAIL_VALIDATION_ERROR
  | BAIL_TERMINATE_NOT_SUPPORTED
  | BAIL_NO_RELATED_ORG_UNITS
  | BAIL_FOUND_REVERSE_ASSOCIATION
  | SKIP_ALREADY_PROCESSED
  | SUCCESS_PROCESSED_ENGAGEMENT
deriving DecidableEq, Repr

/-- `ResultType` from handler.py, with the same defaults. -/
structure ResultType where
  action : Action
  dry_run : Bool := false
  association : Option Association := none
  engagement : Option Engagement := none
deriving DecidableEq, Repr

/-- A Python exception escaping `handle_engagement_update`: `IndexError`
from `assoc.employee[0]` on an empty list, or the `ValueError` raised by
`_get_association_type_uuid`. -/
inductive HandlerError where
  | indexError
  | valueError (msg : String)
deriving DecidableEq, Repr

/-! ## Pure helper functions of handler.py -/

/-- The predicate `lambda assoc: assoc.employee[0].uuid == employee_uuid`.
`assoc.employee[0]` raises `IndexError` when the list is empty. -/
def assocPred (employee_uuid : UUID) (assoc : _Association) :
    Except HandlerError Bool :=
  match assoc.employee with
  | [] => .error .indexError
  | emp :: _ => .ok (emp.uuid == employee_uuid)

/-- `find_current_association`: `first_true` over the association list with
`assocPred`; the predicate is evaluated left to right, so an `IndexError`
propagates from the first examined association with no employee. -/
def find_current_association (employee_uuid : UUID) :
    List _Association → Except HandlerError (Option _Association)
  | [] => .ok none
  | a :: rest =>
    match assocPred employee_uuid a with
    | .error e => .error e
    | .ok true => .ok (some a)
    | .ok false => find_current_association employee_uuid rest

/-- `find_related_unit`: `first_true` over `related_units` with
`lambda org_unit: org_unit.uuid != current_org_unit.uuid`. -/
def find_related_unit (related_units : List _OrgUnit)
    (current_org_unit : _OrgUnitWithRelatedUnits) : Option _OrgUnit :=
  related_units.find? (fun org_unit => org_unit.uuid != current_org_unit.uuid)

/-- `_get_association_list`: `org_unit.associations or []` (normalises a
missing list to the empty list; an already-present list is returned as is,
since `[] or []` is `[]`). -/
def _get_association_list (associations : Option (List _Association)) :
    List _Association :=
  associations.getD []

/-- `get_association_obj`: build the new marker `Association` in the
current org unit, with `from_date = datetime.now().strftime("%Y-%m-%d")`
(the wall clock passed explicitly as `now`). -/
def get_association_obj (employee_uuid : UUID)
    (current_org_unit : _OrgUnitWithRelatedUnits)
    (association_type_uuid : UUID) (now : DateTime) : Association :=
  { person_uuid := employee_uuid
    org_unit_uuid := current_org_unit.uuid
    association_type_uuid := association_type_uuid
    from_date := formatDay now }

/-- `get_engagement_obj`: build the edited `Engagement`, re-pointed at
`other_unit`, all other fields copied from the current engagement. -/
def get_engagement_obj (employee_uuid : UUID) (engagement_uuid : UUID)
    (engagement : _Engagement) (other_unit : _OrgUnit) : Engagement :=
  { uuid := engagement_uuid
    person_uuid := employee_uuid
    org_unit_uuid := other_unit.uuid
    job_function_uuid := engagement.job_function_uuid
    engagement_type_uuid := engagement.engagement_type_uuid
    primary_uuid := engagement.primary_uuid
    user_key := engagement.user_key
    from_date := formatDay engagement.validity.from_date }

/-- `_get_association_type_uuid`: parse the `classes` response with
`min_items=1, max_items=1`; on failure raise `ValueError` (not folded into
a `ResultType`), on success return the single class uuid. -/
def _get_association_type_uuid (association_type : String)
    (classesResponse : List UUID) : Except HandlerError UUID :=
  match classesResponse with
  | [c] => .ok c
  | _ => .error (.valueError
      ("could not find class UUID for class with user_key=" ++
        association_type))

/-- `_process_engagement` (live path): create the association, then edit the
engagement — the trace of model-client calls, in order. -/
def _process_engagement (association : Association)
    (engagement : Engagement) : List WriteCall :=
  [.uploadAssociation association, .uploadEngagementEdit engagement]

/-- `_dry_process_engagement`: log only, no model-client call. -/
def _dry_process_engagement (_association : Association)
    (_engagement : Engagement) : List WriteCall :=
  []

/-- Line 188 of handler.py: `parsed_result.engagements[0].objects[0]`
(indexing guaranteed in bounds by the parse-time cardinality checks). -/
def currentEngagementOf (parsed : _Result) : _Engagement :=
  ((parsed.engagements.headD default).objects).headD default

/-- Line 189 of handler.py: `current_engagement.org_units[0]`. -/
def currentOrgUnitOf (parsed : _Result) : _OrgUnitWithRelatedUnits :=
  (currentEngagementOf parsed).org_units.headD default

/-- Line 190 of handler.py: `current_org_unit.related_units[0].org_units`. -/
def relatedUnitsOf (parsed : _Result) : List _OrgUnit :=
  ((currentOrgUnitOf parsed).related_units.headD default).org_units

/-- `handle_engagement_update`: the central business logic.  Inputs that the
Python function obtains by I/O are parameters: `rawResult` is the GraphQL
response for `RelatedOrgUnitQuery` (the query is only issued when the
request type is not TERMINATE), `classesResponse` the response for
`AssociationTypeUUID`, `now` the wall clock.  The returned list is the
ordered trace of model-client write calls. -/
def handle_engagement_update (rawResult : RawResult)
    (classesResponse : List UUID) (settings : Settings)
    (request_type : RequestType) (payload : PayloadType) (now : DateTime) :
    Except HandlerError (ResultType × List WriteCall) :=
  if request_type = .TERMINATE then
    .ok ({ action := .BAIL_TERMINATE_NOT_SUPPORTED }, [])
  else
    let employee_uuid := payload.uuid
    let engagement_uuid := payload.object_uuid
    match parseResult rawResult with
    | .error _ => .ok ({ action := .BAIL_VALIDATION_ERROR }, [])
    | .ok parsed_result =>
      let current_engagement := currentEngagementOf parsed_result
      let current_org_unit := currentOrgUnitOf parsed_result
      let related_units := relatedUnitsOf parsed_result
      match find_related_unit related_units current_org_unit with
      | none => .ok ({ action := .BAIL_NO_RELATED_ORG_UNITS }, [])
      | some other_unit =>
        match find_current_association employee_uuid
            (_get_association_list (some other_unit.associations)) with
        | .error e => .error e
        | .ok (some _) =>
          .ok ({ action := .BAIL_FOUND_REVERSE_ASSOCIATION }, [])
        | .ok none =>
          match find_current_association employee_uuid
              (_get_association_list current_org_unit.associations) with
          | .error e => .error e
          | .ok (some _) => .ok ({ action := .SKIP_ALREADY_PROCESSED }, [])
          | .ok none =>
            match _get_association_type_uuid settings.association_type
                classesResponse with
            | .error e => .error e
            | .ok association_type_uuid =>
              let new_association := get_association_obj employee_uuid
                current_org_unit association_type_uuid now
              let edited_engagement := get_engagement_obj employee_uuid
                engagement_uuid current_engagement other_unit
              let writes :=
                if settings.dry_run then
                  _dry_process_engagement new_association edited_engagement
                else
                  _process_engagement new_association edited_engagement
              .ok ({ action := .SUCCESS_PROCESSED_ENGAGEMENT
                     dry_run := settings.dry_run
                     association := some new_association
                     engagement := some edited_engagement }, writes)

/-! ## Bulk producer -/

/-- pydantic `_EmployeeFlat`. -/
structure _EmployeeFlat where
  employee_uuid : UUID
deriving DecidableEq, Repr, Inhabited

/-- pydantic `_EngagementFlat`: engagement uuid plus its `objects`
(no cardinality constraint). -/
structure _EngagementFlat where
  uuid : UUID
  objects : List _EmployeeFlat
deriving DecidableEq, Repr, Inhabited

/-- pydantic `_EngagementResult`. -/
structure _EngagementResult where
  engagements : List _EngagementFlat
deriving DecidableEq, Repr, Inhabited

/-- `get_bulk_update_payloads`: for each engagement in the platform-wide
listing, for each of its `objects` entries, yield one payload carrying the
entry's employee uuid and the engagement's uuid. -/
def get_bulk_update_payloads (result : _EngagementResult) (now : DateTime) :
    List PayloadType :=
  result.engagements.flatMap (fun engagement =>
    engagement.objects.map (fun employee =>
      { uuid := employee.employee_uuid
        object_uuid := engagement.uuid
        time := now }))

/-! ## Specification-side predicates and concrete fixtures -/

/-- Total Boolean form of the matching predicate: an association matches when
its employee list is non-empty and the first employee's uuid is the given
one. On associations with at least one employee it agrees with `assocPred`. -/
def assocMatches (employee_uuid : UUID) (a : _Association) : Bool :=
  match a.employee with
  | [] => false
  | emp :: _ => emp.uuid == employee_uuid

/-- A raw response violates one of the required-cardinality constraints of
the snapshot model: empty `engagements` list, empty `objects` list, empty
`org_unit` list, or empty `related_units` wrapper list. -/
def violatesCardinality (raw : RawResult) : Prop :=
  raw.engagements = [] ∨
    ∃ el ∈ raw.engagements, el.objects = [] ∨
      ∃ eng ∈ el.objects, eng.org_unit = [] ∨
        ∃ ou ∈ eng.org_unit, ou.related_units = []

/-- Fixture: a validity starting on day 10, no end date. -/
def egValidity : Validity := ⟨⟨10, 0⟩, none⟩

/-- Fixture builder: a raw snapshot with one engagement (job function 11,
engagement type 12, user key "uk") in a current unit `cur` whose related
list is `relUnits`. -/
def mkRaw (cur : UUID) (relUnits : List _OrgUnit)
    (curAssocs : Option (List _Association)) (primary : Option UUID) :
    RawResult :=
  ⟨[⟨[⟨[⟨cur, [⟨relUnits⟩], curAssocs⟩], 11, 12, primary, "uk",
    egValidity⟩]⟩]⟩

/-- Fixture builder: the parsed form of `mkRaw` (for present `primary`). -/
def mkParsed (cur : UUID) (relUnits : List _OrgUnit)
    (curAssocs : Option (List _Association)) (primary : UUID) : _Result :=
  ⟨[⟨[⟨[⟨cur, [⟨relUnits⟩], curAssocs⟩], 11, 12, primary, "uk",
    egValidity⟩]⟩]⟩

/-- Fixture: related unit 2 with no associations. -/
def egOtherUnit : _OrgUnit := ⟨2, []⟩

/-- Fixture: an association for employee 100. -/
def egMatchAssoc : _Association := ⟨[⟨100⟩]⟩

/-- Fixture: related unit 2 already holding an association for employee
100. -/
def egOtherUnitMatch : _OrgUnit := ⟨2, [egMatchAssoc]⟩

/-- Fixture: event payload for employee 100 and engagement 200. -/
def egPayload : PayloadType := ⟨100, 200, ⟨5, 0⟩⟩

/-- Fixture: the wall clock at the handler invocation, day 6. -/
def egNow : DateTime := ⟨6, 0⟩

/-- Fixture: live (non-dry-run) settings. -/
def egLive : Settings := ⟨false, "assoc"⟩

/-- Fixture: dry-run settings. -/
def egDry : Settings := ⟨true, "assoc"⟩

/-- Fixture: the association payload built on the success path for employee
100 in unit 1 with association type 7 on day 6. -/
def egAssocW : Association := ⟨100, 1, 7, 6⟩

/-- Fixture: the engagement payload built on the success path — engagement
200 of employee 100 moved to unit 2, fields 11/12/13/"uk"/10 copied. -/
def egEngW : Engagement := ⟨200, 100, 2, 11, 12, 13, "uk", 10⟩

/-- Fixture: the success `ResultType` on the live path. -/
def egResW : ResultType :=
  ⟨.SUCCESS_PROCESSED_ENGAGEMENT, false, some egAssocW, some egEngW⟩

/-- Fixture: the live success write trace. -/
def egWsW : List WriteCall :=
  [.uploadAssociation egAssocW, .uploadEngagementEdit egEngW]

/-! ## Helper lemmas -/

lemma assocPred_of_ne_nil (e : UUID) (a : _Association)
    (h : a.employee ≠ []) : assocPred e a = .ok (assocMatches e a) := by
  cases hemp : a.employee with
  | nil => exact absurd hemp h
  | cons emp rest => simp [assocPred, assocMatches, hemp]

/-- On a list of associations that all carry at least one employee,
`find_current_association` does not raise and returns the first match. -/
lemma find_current_association_eq_find? (e : UUID) (l : List _Association)
    (h : ∀ a ∈ l, a.employee ≠ []) :
    find_current_association e l = .ok (l.find? (assocMatches e)) := by
  induction l with
  | nil => rfl
  | cons a rest ih =>
    have ha : a.employee ≠ [] := h a (List.mem_cons_self a rest)
    simp only [find_current_association, assocPred_of_ne_nil e a ha]
    cases hm : assocMatches e a with
    | false =>
      rw [List.find?_cons_of_neg _ (by simp [hm])]
      exact ih (fun x hx => h x (List.mem_cons_of_mem _ hx))
    | true => rw [List.find?_cons_of_pos _ hm]

/-- Branch lemma: TERMINATE requests short-circuit. -/
lemma handle_terminate (raw : RawResult) (classes : List UUID)
    (settings : Settings) (payload : PayloadType) (now : DateTime) :
    handle_engagement_update raw classes settings .TERMINATE payload now =
      .ok ({ action := .BAIL_TERMINATE_NOT_SUPPORTED }, []) := by
  simp [handle_engagement_update]

/-- Branch lemma: a snapshot failing validation. -/
lemma handle_validation_error (raw : RawResult) (classes : List UUID)
    (settings : Settings) (rt : RequestType) (payload : PayloadType)
    (now : DateTime) (er : Unit)
    (hrt : rt ≠ .TERMINATE) (hparse : parseResult raw = .error er) :
    handle_engagement_update raw classes settings rt payload now =
      .ok ({ action := .BAIL_VALIDATION_ERROR }, []) := by
  simp only [handle_engagement_update, if_neg hrt, hparse]

/-- Branch lemma: no related unit with a different uuid. -/
lemma handle_no_related (raw : RawResult) (classes : List UUID)
    (settings : Settings) (rt : RequestType) (payload : PayloadType)
    (now : DateTime) (parsed : _Result)
    (hrt : rt ≠ .TERMINATE) (hparse : parseResult raw = .ok parsed)
    (hother : find_related_unit (relatedUnitsOf parsed)
      (currentOrgUnitOf parsed) = none) :
    handle_engagement_update raw classes settings rt payload now =
      .ok ({ action := .BAIL_NO_RELATED_ORG_UNITS }, []) := by
  simp only [handle_engagement_update, if_neg hrt, hparse, hother]

/-- Branch lemma: the reverse-association guard fires. -/
lemma handle_reverse (raw : RawResult) (classes : List UUID)
    (settings : Settings) (rt : RequestType) (payload : PayloadType)
    (now : DateTime) (parsed : _Result) (other : _OrgUnit) (a : _Association)
    (hrt : rt ≠ .TERMINATE) (hparse : parseResult raw = .ok parsed)
    (hother : find_related_unit (relatedUnitsOf parsed)
      (currentOrgUnitOf parsed) = some other)
    (hrev : find_current_association payload.uuid
      (_get_association_list (some other.associations)) = .ok (some a)) :
    handle_engagement_update raw classes settings rt payload now =
      .ok ({ action := .BAIL_FOUND_REVERSE_ASSOCIATION }, []) := by
  simp only [handle_engagement_update, if_neg hrt, hparse, hother, hrev]

/-- Branch lemma: the current-association guard fires. -/
lemma handle_skip (raw : RawResult) (classes : List UUID)
    (settings : Settings) (rt : RequestType) (payload : PayloadType)
    (now : DateTime) (parsed : _Result) (other : _OrgUnit) (a : _Association)
    (hrt : rt ≠ .TERMINATE) (hparse : parseResult raw = .ok parsed)
    (hother : find_related_unit (relatedUnitsOf parsed)
      (currentOrgUnitOf parsed) = some other)
    (hrev : find_current_association payload.uuid
      (_get_association_list (some other.associations)) = .ok none)
    (hcur : find_current_association payload.uuid
      (_get_association_list (currentOrgUnitOf parsed).associations) =
        .ok (some a)) :
    handle_engagement_update raw classes settings rt payload now =
      .ok ({ action := .SKIP_ALREADY_PROCESSED }, []) := by
  simp only [handle_engagement_update, if_neg hrt, hparse, hother, hrev, hcur]

/-- Branch lemma: all guards pass and the association type resolves, so the
handler succeeds with the built payloads and the dry-run-dependent trace. -/
lemma handle_success (raw : RawResult) (classes : List UUID)
    (settings : Settings) (rt : RequestType) (payload : PayloadType)
    (now : DateTime) (parsed : _Result) (other : _OrgUnit) (c : UUID)
    (hrt : rt ≠ .TERMINATE) (hparse : parseResult raw = .ok parsed)
    (hother : find_related_unit (relatedUnitsOf parsed)
      (currentOrgUnitOf parsed) = some other)
    (hrev : find_current_association payload.uuid
      (_get_association_list (some other.associations)) = .ok none)
    (hcur : find_current_association payload.uuid
      (_get_association_list (currentOrgUnitOf parsed).associations) =
        .ok none)
    (hclasses : classes = [c]) :
    handle_engagement_update raw classes settings rt payload now =
      .ok ({ action := .SUCCESS_PROCESSED_ENGAGEMENT
             dry_run := settings.dry_run
             association := some (get_association_obj payload.uuid
               (currentOrgUnitOf parsed) c now)
             engagement := some (get_engagement_obj payload.uuid
               payload.object_uuid (currentEngagementOf parsed) other) },
           if settings.dry_run then []
           else [.uploadAssociation (get_association_obj payload.uuid
                    (currentOrgUnitOf parsed) c now),
                 .uploadEngagementEdit (get_engagement_obj payload.uuid
                    payload.object_uuid (currentEngagementOf parsed) other)]) := by
  simp only [handle_engagement_update, if_neg hrt, hparse, hother, hrev, hcur,
    hclasses, _get_association_type_uuid, _process_engagement,
    _dry_process_engagement]

/-- Branch lemma: guards pass but the association-type lookup fails, so the
`ValueError` propagates to the caller. -/
lemma handle_config_error (raw : RawResult) (classes : List UUID)
    (settings : Settings) (rt : RequestType) (payload : PayloadType)
    (now : DateTime) (parsed : _Result) (other : _OrgUnit) (e : HandlerError)
    (hrt : rt ≠ .TERMINATE) (hparse : parseResult raw = .ok parsed)
    (hother : find_related_unit (relatedUnitsOf parsed)
      (currentOrgUnitOf parsed) = some other)
    (hrev : find_current_association payload.uuid
      (_get_association_list (some other.associations)) = .ok none)
    (hcur : find_current_association payload.uuid
      (_get_association_list (currentOrgUnitOf parsed).associations) =
        .ok none)
    (htype : _get_association_type_uuid settings.association_type classes =
      .error e) :
    handle_engagement_update raw classes settings rt payload now =
      .error e := by
  simp only [handle_engagement_update, if_neg hrt, hparse, hother, hrev, hcur,
    htype]

lemma parseOrgUnit_error_of_nil (ou : RawOrgUnitWithRelatedUnits)
    (h : ou.related_units = []) : parseOrgUnit ou = .error () := by
  simp [parseOrgUnit, h]

/-- An engagement object violating one of its own parse-time constraints
(empty `org_unit` list, missing `primary_uuid`, or an `org_unit` element
with an empty `related_units` wrapper list) fails validation. -/
lemma parseEngagement_error_of_violation (eng : RawEngagement)
    (h : eng.org_unit = [] ∨ eng.primary_uuid = none ∨
      ∃ ou ∈ eng.org_unit, ou.related_units = []) :
    parseEngagement eng = .error () := by
  cases hou : eng.org_unit with
  | nil =>
    cases hp : eng.primary_uuid with
    | none => simp [parseEngagement, hou, hp]
    | some p => simp [parseEngagement, hou, hp]
  | cons ou₀ rest =>
    cases rest with
    | cons ou₁ rest₂ =>
      cases hp : eng.primary_uuid with
      | none => simp [parseEngagement, hou, hp]
      | some p => simp [parseEngagement, hou, hp]
    | nil =>
      cases hp : eng.primary_uuid with
      | none => simp [parseEngagement, hou, hp]
      | some p =>
        rcases h with h | h | ⟨ou, hmem, hrel⟩
        · rw [hou] at h; exact absurd h (by simp)
        · rw [hp] at h; exact absurd h (by simp)
        · rw [hou] at hmem
          obtain rfl : ou = ou₀ := List.mem_singleton.mp hmem
          simp [parseEngagement, hou, hp, parseOrgUnit_error_of_nil ou hrel]

/-- A raw response violating any required-cardinality constraint, or whose
engagement lacks `primary_uuid`, fails snapshot validation. -/
lemma parseResult_error_of_violation (raw : RawResult)
    (h : raw.engagements = [] ∨
      ∃ el ∈ raw.engagements, el.objects = [] ∨
        ∃ eng ∈ el.objects, eng.org_unit = [] ∨ eng.primary_uuid = none ∨
          ∃ ou ∈ eng.org_unit, ou.related_units = []) :
    parseResult raw = .error () := by
  cases hE : raw.engagements with
  | nil => simp [parseResult, hE]
  | cons el₀ rest =>
    cases rest with
    | cons el₁ rest₂ => simp [parseResult, hE]
    | nil =>
      rcases h with h | ⟨el, hel, h⟩
      · rw [hE] at h; exact absurd h (by simp)
      · rw [hE] at hel
        obtain rfl : el = el₀ := List.mem_singleton.mp hel
        cases hO : el.objects with
        | nil =>
          rcases h with h | ⟨eng, heng, _⟩
          · simp [parseResult, hE, hO]
          · rw [hO] at heng; exact absurd heng (by simp)
        | cons eng₀ rest₂ =>
          cases rest₂ with
          | cons _ _ => simp [parseResult, hE, hO]
          | nil =>
            rcases h with h | ⟨eng, heng, hv⟩
            · rw [hO] at h; exact absurd h (by simp)
            · rw [hO] at heng
              obtain rfl : eng = eng₀ := List.mem_singleton.mp heng
              simp [parseResult, hE, hO,
                parseEngagement_error_of_violation eng hv]

/-- Master inversion: whenever the handler returns normally, the write trace
is determined by the outcome — the success outcome carries the two payloads
(the association built for the event's employee) and writes them in order
unless dry-run is set; every other outcome writes nothing. -/
lemma handle_ok_inv (raw : RawResult) (classes : List UUID)
    (settings : Settings) (rt : RequestType) (payload : PayloadType)
    (now : DateTime) (r : ResultType) (ws : List WriteCall)
    (h : handle_engagement_update raw classes settings rt payload now =
      .ok (r, ws)) :
    (r.action = .SUCCESS_PROCESSED_ENGAGEMENT →
      ∃ a e, r.association = some a ∧ r.engagement = some e ∧
        a.person_uuid = payload.uuid ∧ r.dry_run = settings.dry_run ∧
        ws = if settings.dry_run then []
             else [.uploadAssociation a, .uploadEngagementEdit e])
    ∧ (r.action ≠ .SUCCESS_PROCESSED_ENGAGEMENT → ws = []) := by
  simp only [handle_engagement_update, _process_engagement,
    _dry_process_engagement] at h
  split at h
  · simp only [Except.ok.injEq, Prod.mk.injEq] at h
    obtain ⟨h1, h2⟩ := h
    subst h1; subst h2
    exact ⟨fun hs => absurd hs (by simp), fun _ => rfl⟩
  · split at h
    · simp only [Except.ok.injEq, Prod.mk.injEq] at h
      obtain ⟨h1, h2⟩ := h
      subst h1; subst h2
      exact ⟨fun hs => absurd hs (by simp), fun _ => rfl⟩
    · split at h
      · simp only [Except.ok.injEq, Prod.mk.injEq] at h
        obtain ⟨h1, h2⟩ := h
        subst h1; subst h2
        exact ⟨fun hs => absurd hs (by simp), fun _ => rfl⟩
      · split at h
        · exact absurd h (by simp)
        · simp only [Except.ok.injEq, Prod.mk.injEq] at h
          obtain ⟨h1, h2⟩ := h
          subst h1; subst h2
          exact ⟨fun hs => absurd hs (by simp), fun _ => rfl⟩
        · split at h
          · exact absurd h (by simp)
          · simp only [Except.ok.injEq, Prod.mk.injEq] at h
            obtain ⟨h1, h2⟩ := h
            subst h1; subst h2
            exact ⟨fun hs => absurd hs (by simp), fun _ => rfl⟩
          · split at h
            · exact absurd h (by simp)
            · simp only [Except.ok.injEq, Prod.mk.injEq] at h
              obtain ⟨h1, h2⟩ := h
              subst h1; subst h2
              refine ⟨fun _ => ⟨_, _, rfl, rfl, rfl, rfl, rfl⟩,
                fun hne => absurd rfl hne⟩

lemma get_bulk_update_payloads_cons (g : _EngagementFlat)
    (rest : List _EngagementFlat) (now : DateTime) :
    get_bulk_update_payloads ⟨g :: rest⟩ now =
      g.objects.map (fun employee =>
        { uuid := employee.employee_uuid, object_uuid := g.uuid,
          time := now }) ++ get_bulk_update_payloads ⟨rest⟩ now := by
  simp [get_bulk_update_payloads]

/-- When every engagement of the listing carries exactly one employee
object, the bulk producer yields exactly one payload per engagement. -/
lemma bulk_map_of_singletons (now : DateTime) :
    ∀ (l : List _EngagementFlat), (∀ g ∈ l, ∃ emp, g.objects = [emp]) →
      get_bulk_update_payloads ⟨l⟩ now = l.map (fun g =>
        { uuid := (g.objects.headD default).employee_uuid,
          object_uuid := g.uuid, time := now })
  | [], _ => rfl
  | g :: rest, h => by
    obtain ⟨emp, hg⟩ := h g (List.mem_cons_self g rest)
    rw [get_bulk_update_payloads_cons,
      bulk_map_of_singletons now rest
        (fun x hx => h x (List.mem_cons_of_mem _ hx))]
    simp [hg]

/-! ## Claims -/

/-- C1: for every parsed snapshot in which the other (related) unit has an
association whose employee id equals the event's employee id, the handler
returns BAIL_FOUND_REVERSE_ASSOCIATION with no write — even when the
current unit also has such an association —, and SKIP_ALREADY_PROCESSED is
returned exactly when the other unit has no matching association but the
current unit does: the reverse-association guard is evaluated strictly
before the current-association guard.  (The association lists scanned by
the guards are assumed to carry at least one employee per association; the
source model does not enforce this, see C7.) -/
theorem c1_reverse_guard_precedes_current_guard
    (raw : RawResult) (classes : List UUID) (settings : Settings)
    (rt : RequestType) (payload : PayloadType) (now : DateTime)
    (parsed : _Result) (other : _OrgUnit)
    (hrt : rt ≠ .TERMINATE)
    (hparse : parseResult raw = .ok parsed)
    (hother : find_related_unit (relatedUnitsOf parsed)
      (currentOrgUnitOf parsed) = some other)
    (hwfo : ∀ a ∈ other.associations, a.employee ≠ [])
    (hwfc : ∀ a ∈ _get_association_list
      (currentOrgUnitOf parsed).associations, a.employee ≠ []) :
    ((∃ a ∈ other.associations, assocMatches payload.uuid a) →
      handle_engagement_update raw classes settings rt payload now =
        .ok ({ action := .BAIL_FOUND_REVERSE_ASSOCIATION }, []))
    ∧ (handle_engagement_update raw classes settings rt payload now =
          .ok ({ action := .SKIP_ALREADY_PROCESSED }, []) ↔
        (¬ (∃ a ∈ other.associations, assocMatches payload.uuid a)) ∧
          ∃ a ∈ _get_association_list
            (currentOrgUnitOf parsed).associations,
            assocMatches payload.uuid a) := by
  have hrevEq : find_current_association payload.uuid
      (_get_association_list (some other.associations)) =
      .ok (other.associations.find? (assocMatches payload.uuid)) :=
    find_current_association_eq_find? _ _ hwfo
  have hcurEq : find_current_association payload.uuid
      (_get_association_list (currentOrgUnitOf parsed).associations) =
      .ok ((_get_association_list
        (currentOrgUnitOf parsed).associations).find?
          (assocMatches payload.uuid)) :=
    find_current_association_eq_find? _ _ hwfc
  have hfound : (∃ a ∈ other.associations, assocMatches payload.uuid a) →
      handle_engagement_update raw classes settings rt payload now =
        .ok ({ action := .BAIL_FOUND_REVERSE_ASSOCIATION }, []) := by
    intro hex
    obtain ⟨a, hfind⟩ : ∃ a,
        other.associations.find? (assocMatches payload.uuid) = some a := by
      rw [← Option.isSome_iff_exists, List.find?_isSome]
      exact hex
    exact handle_reverse raw classes settings rt payload now parsed other a
      hrt hparse hother (by rw [hrevEq, hfind])
  refine ⟨hfound, ?_, ?_⟩
  · intro hskip
    have hnoRev : ¬ ∃ a ∈ other.associations, assocMatches payload.uuid a := by
      intro hex
      rw [hfound hex] at hskip
      exact absurd hskip (by simp)
    refine ⟨hnoRev, ?_⟩
    by_contra hnex
    have hrevNone :
        other.associations.find? (assocMatches payload.uuid) = none :=
      List.find?_eq_none.mpr (fun x hx hpx => hnoRev ⟨x, hx, hpx⟩)
    have hcurNone : (_get_association_list
        (currentOrgUnitOf parsed).associations).find?
          (assocMatches payload.uuid) = none :=
      List.find?_eq_none.mpr (fun x hx hpx => hnex ⟨x, hx, hpx⟩)
    cases classes with
    | nil =>
      have := handle_config_error raw [] settings rt payload now parsed
        other _ hrt hparse hother (by rw [hrevEq, hrevNone])
        (by rw [hcurEq, hcurNone]) rfl
      rw [this] at hskip
      exact absurd hskip (by simp)
    | cons c rest =>
      cases rest with
      | nil =>
        have := handle_success raw [c] settings rt payload now parsed
          other c hrt hparse hother (by rw [hrevEq, hrevNone])
          (by rw [hcurEq, hcurNone]) rfl
        rw [this] at hskip
        exact absurd hskip (by simp)
      | cons d rest₂ =>
        have := handle_config_error raw (c :: d :: rest₂) settings rt
          payload now parsed other _ hrt hparse hother
          (by rw [hrevEq, hrevNone]) (by rw [hcurEq, hcurNone]) rfl
        rw [this] at hskip
        exact absurd hskip (by simp)
  · rintro ⟨hnot, hex⟩
    have hrevNone :
        other.associations.find? (assocMatches payload.uuid) = none :=
      List.find?_eq_none.mpr (fun x hx hpx => hnot ⟨x, hx, hpx⟩)
    obtain ⟨a, hfind⟩ : ∃ a, (_get_association_list
        (currentOrgUnitOf parsed).associations).find?
          (assocMatches payload.uuid) = some a := by
      rw [← Option.isSome_iff_exists, List.find?_isSome]
      exact hex
    exact handle_skip raw classes settings rt payload now parsed other a
      hrt hparse hother (by rw [hrevEq, hrevNone]) (by rw [hcurEq, hfind])

/-- C2: for every snapshot passing all guards, the outcome is
SUCCESS_PROCESSED_ENGAGEMENT and the two returned payloads have exactly the
fields the spec states: the new association carries the event's employee,
the current unit, the resolved association type and the current date (day
granularity); the edited engagement keeps the event's engagement id, points
at the other unit, and copies job function, engagement type, primary, user
key and from-date from the current engagement. -/
theorem c2_success_payload_fields
    (raw : RawResult) (classes : List UUID) (settings : Settings)
    (rt : RequestType) (payload : PayloadType) (now : DateTime)
    (parsed : _Result) (other : _OrgUnit) (c : UUID)
    (hrt : rt ≠ .TERMINATE)
    (hparse : parseResult raw = .ok parsed)
    (hother : find_related_unit (relatedUnitsOf parsed)
      (currentOrgUnitOf parsed) = some other)
    (hrev : find_current_association payload.uuid
      (_get_association_list (some other.associations)) = .ok none)
    (hcur : find_current_association payload.uuid
      (_get_association_list (currentOrgUnitOf parsed).associations) =
        .ok none)
    (hclasses : classes = [c]) :
    ∃ r ws,
      handle_engagement_update raw classes settings rt payload now =
        .ok (r, ws) ∧
      r.action = .SUCCESS_PROCESSED_ENGAGEMENT ∧
      ∃ a e, r.association = some a ∧ r.engagement = some e ∧
        a.person_uuid = payload.uuid ∧
        a.org_unit_uuid = (currentOrgUnitOf parsed).uuid ∧
        a.association_type_uuid = c ∧
        a.from_date = formatDay now ∧
        e.uuid = payload.object_uuid ∧
        e.person_uuid = payload.uuid ∧
        e.org_unit_uuid = other.uuid ∧
        e.job_function_uuid = (currentEngagementOf parsed).job_function_uuid ∧
        e.engagement_type_uuid =
          (currentEngagementOf parsed).engagement_type_uuid ∧
        e.primary_uuid = (currentEngagementOf parsed).primary_uuid ∧
        e.user_key = (currentEngagementOf parsed).user_key ∧
        e.from_date = formatDay (currentEngagementOf parsed).validity.from_date :=
  ⟨_, _, handle_success raw classes settings rt payload now parsed other c
      hrt hparse hother hrev hcur hclasses,
    rfl, _, _, rfl, rfl, rfl, rfl, rfl, rfl, rfl, rfl, rfl, rfl, rfl, rfl,
    rfl, rfl⟩

/-- C3: whenever the handler returns normally, the write trace is empty on
every non-success outcome; on the success outcome it is empty when dry-run
is set and is exactly the association creation followed by the engagement
edit (two calls, in that order, on the returned payloads) when dry-run is
unset. -/
theorem c3_write_trace
    (raw : RawResult) (classes : List UUID) (settings : Settings)
    (rt : RequestType) (payload : PayloadType) (now : DateTime)
    (r : ResultType) (ws : List WriteCall)
    (h : handle_engagement_update raw classes settings rt payload now =
      .ok (r, ws)) :
    (r.action = .SUCCESS_PROCESSED_ENGAGEMENT →
      (settings.dry_run = true → ws = []) ∧
      (settings.dry_run = false →
        ∃ a e, r.association = some a ∧ r.engagement = some e ∧
          ws = [.uploadAssociation a, .uploadEngagementEdit e]))
    ∧ (r.action ≠ .SUCCESS_PROCESSED_ENGAGEMENT → ws = []) := by
  obtain ⟨hsucc, hbail⟩ := handle_ok_inv raw classes settings rt payload now
    r ws h
  refine ⟨fun hs => ?_, hbail⟩
  obtain ⟨a, e, ha, he, _, _, hws⟩ := hsucc hs
  constructor
  · intro hdr
    rw [hws, hdr]
    rfl
  · intro hdr
    exact ⟨a, e, ha, he, by rw [hws, hdr]; rfl⟩

/-- C4: for every validated snapshot, the other unit is the first unit of
the related-unit list (inside the cardinality-1 wrapper) whose id differs
from the current unit's id, and when the list is empty or contains only
units carrying the current unit's id the handler returns
BAIL_NO_RELATED_ORG_UNITS. -/
theorem c4_other_unit_is_first_differing
    (raw : RawResult) (classes : List UUID) (settings : Settings)
    (rt : RequestType) (payload : PayloadType) (now : DateTime)
    (parsed : _Result)
    (hrt : rt ≠ .TERMINATE)
    (hparse : parseResult raw = .ok parsed) :
    ((∀ u ∈ relatedUnitsOf parsed, u.uuid = (currentOrgUnitOf parsed).uuid) →
      handle_engagement_update raw classes settings rt payload now =
        .ok ({ action := .BAIL_NO_RELATED_ORG_UNITS }, []))
    ∧ ∀ other : _OrgUnit,
        (find_related_unit (relatedUnitsOf parsed)
            (currentOrgUnitOf parsed) = some other ↔
          other.uuid ≠ (currentOrgUnitOf parsed).uuid ∧
            ∃ pre post, relatedUnitsOf parsed = pre ++ other :: post ∧
              ∀ v ∈ pre, v.uuid = (currentOrgUnitOf parsed).uuid) := by
  constructor
  · intro hall
    have hnone : find_related_unit (relatedUnitsOf parsed)
        (currentOrgUnitOf parsed) = none := by
      unfold find_related_unit
      exact List.find?_eq_none.mpr (fun u hu => by simp [hall u hu])
    exact handle_no_related raw classes settings rt payload now parsed hrt
      hparse hnone
  · intro other
    unfold find_related_unit
    rw [List.find?_eq_some]
    constructor
    · rintro ⟨hp, pre, post, hsplit, hpre⟩
      exact ⟨by simpa using hp, pre, post, hsplit,
        fun v hv => by simpa using hpre v hv⟩
    · rintro ⟨hne, pre, post, hsplit, hpre⟩
      exact ⟨by simpa using hne, pre, post, hsplit,
        fun v hv => by simpa using hpre v hv⟩

/-- C5: idempotence against a live backend — if a first invocation returns
SUCCESS_PROCESSED_ENGAGEMENT on a live (non-dry-run) configuration and the
association it wrote (a marker for the event's employee) is visible in the
other unit resolved by the second invocation's snapshot, then the second
invocation returns BAIL_FOUND_REVERSE_ASSOCIATION (one of the two allowed
skip outcomes) and performs no further write.  The reflection of the first
call's writes in the second snapshot is modelled by the membership
hypothesis, following the spec's description of the live backend. -/
theorem c5_second_invocation_skips
    (raw₁ raw₂ : RawResult) (classes₁ classes₂ : List UUID)
    (settings : Settings) (rt₁ rt₂ : RequestType) (payload : PayloadType)
    (now₁ now₂ : DateTime) (parsed₂ : _Result) (other₂ : _OrgUnit)
    (r₁ : ResultType) (ws₁ : List WriteCall)
    (h1 : handle_engagement_update raw₁ classes₁ settings rt₁ payload now₁ =
      .ok (r₁, ws₁))
    (hsucc : r₁.action = .SUCCESS_PROCESSED_ENGAGEMENT)
    (_hlive : settings.dry_run = false)
    (hrt₂ : rt₂ ≠ .TERMINATE)
    (hparse₂ : parseResult raw₂ = .ok parsed₂)
    (hother₂ : find_related_unit (relatedUnitsOf parsed₂)
      (currentOrgUnitOf parsed₂) = some other₂)
    (hreflect : ∃ a, r₁.association = some a ∧
      (⟨[⟨a.person_uuid⟩]⟩ : _Association) ∈ other₂.associations)
    (hwf : ∀ a ∈ other₂.associations, a.employee ≠ []) :
    handle_engagement_update raw₂ classes₂ settings rt₂ payload now₂ =
      .ok ({ action := .BAIL_FOUND_REVERSE_ASSOCIATION }, []) := by
  obtain ⟨a₁, ha₁, hmem⟩ := hreflect
  obtain ⟨a, e, ha, he, hperson, _, _⟩ :=
    (handle_ok_inv raw₁ classes₁ settings rt₁ payload now₁ r₁ ws₁ h1).1 hsucc
  obtain rfl : a = a₁ := by
    rw [ha] at ha₁
    exact Option.some.inj ha₁
  rw [hperson] at hmem
  have hex : ∃ x ∈ other₂.associations, assocMatches payload.uuid x :=
    ⟨⟨[⟨payload.uuid⟩]⟩, hmem, by simp [assocMatches]⟩
  obtain ⟨b, hfind⟩ : ∃ b,
      other₂.associations.find? (assocMatches payload.uuid) = some b := by
    rw [← Option.isSome_iff_exists, List.find?_isSome]
    exact hex
  have hEq : find_current_association payload.uuid
      (_get_association_list (some other₂.associations)) =
      .ok (other₂.associations.find? (assocMatches payload.uuid)) :=
    find_current_association_eq_find? _ _ hwf
  exact handle_reverse raw₂ classes₂ settings rt₂ payload now₂ parsed₂
    other₂ b hrt₂ hparse₂ hother₂ (by rw [hEq, hfind])

/-- C6: every raw query response violating a required-cardinality
constraint of the snapshot model (empty engagement list, empty objects
list, empty org-unit list, or empty related-units wrapper list) makes the
handler return the BAIL_VALIDATION_ERROR outcome — recovered locally, not
raised — with no write attempted. -/
theorem c6_cardinality_violation_is_validation_error
    (raw : RawResult) (classes : List UUID) (settings : Settings)
    (rt : RequestType) (payload : PayloadType) (now : DateTime)
    (hrt : rt ≠ .TERMINATE)
    (hviol : violatesCardinality raw) :
    handle_engagement_update raw classes settings rt payload now =
      .ok ({ action := .BAIL_VALIDATION_ERROR }, []) := by
  have herr : parseResult raw = .error () := by
    refine parseResult_error_of_violation raw ?_
    rcases hviol with h | ⟨el, hel, h | ⟨eng, heng, h | ⟨ou, hou, hrel⟩⟩⟩
    · exact Or.inl h
    · exact Or.inr ⟨el, hel, Or.inl h⟩
    · exact Or.inr ⟨el, hel, Or.inr ⟨eng, heng, Or.inl h⟩⟩
    · exact Or.inr ⟨el, hel, Or.inr ⟨eng, heng,
        Or.inr (Or.inr ⟨ou, hou, hrel⟩)⟩⟩
  exact handle_validation_error raw classes settings rt payload now ()
    hrt herr

/-- C7 counterexample: a raw response with an association carrying zero
employees passes snapshot validation (the model puts no cardinality
constraint on `employee`), and the handler then fails on the employee
lookup (an index error) instead of returning a closed-set outcome — so the
claim that validation rejects such responses is false on the code. -/
theorem c7_counterexample :
    (∃ parsed, parseResult
      (mkRaw 1 [⟨2, [⟨[]⟩]⟩] (some []) (some 13)) = .ok parsed) ∧
    handle_engagement_update (mkRaw 1 [⟨2, [⟨[]⟩]⟩] (some []) (some 13))
      [7] egLive .EDIT egPayload egNow = .error .indexError :=
  ⟨⟨_, rfl⟩, rfl⟩

/-- C7 amended: snapshot validation does not constrain the employee count
of an association; however, when every association of the related units and
of the current unit carries at least one employee, the re-entrancy guards
never fail on the employee lookup: the handler does not raise the index
error. -/
theorem c7_amended_guards_safe_when_employees_present
    (raw : RawResult) (classes : List UUID) (settings : Settings)
    (rt : RequestType) (payload : PayloadType) (now : DateTime)
    (parsed : _Result)
    (hparse : parseResult raw = .ok parsed)
    (hwf1 : ∀ u ∈ relatedUnitsOf parsed, ∀ a ∈ u.associations,
      a.employee ≠ [])
    (hwf2 : ∀ a ∈ _get_association_list
      (currentOrgUnitOf parsed).associations, a.employee ≠ []) :
    handle_engagement_update raw classes settings rt payload now ≠
      .error .indexError := by
  by_cases hrt : rt = .TERMINATE
  · subst hrt
    rw [handle_terminate]
    simp
  · cases hO : find_related_unit (relatedUnitsOf parsed)
        (currentOrgUnitOf parsed) with
    | none =>
      rw [handle_no_related raw classes settings rt payload now parsed hrt
        hparse hO]
      simp
    | some other =>
      have hmem : other ∈ relatedUnitsOf parsed :=
        List.mem_of_find?_eq_some hO
      have hrevEq : find_current_association payload.uuid
          (_get_association_list (some other.associations)) =
          .ok (other.associations.find? (assocMatches payload.uuid)) :=
        find_current_association_eq_find? _ _ (hwf1 other hmem)
      have hcurEq : find_current_association payload.uuid
          (_get_association_list (currentOrgUnitOf parsed).associations) =
          .ok ((_get_association_list
            (currentOrgUnitOf parsed).associations).find?
              (assocMatches payload.uuid)) :=
        find_current_association_eq_find? _ _ hwf2
      cases hR : other.associations.find? (assocMatches payload.uuid) with
      | some a =>
        rw [handle_reverse raw classes settings rt payload now parsed other
          a hrt hparse hO (by rw [hrevEq, hR])]
        simp
      | none =>
        cases hC : (_get_association_list
            (currentOrgUnitOf parsed).associations).find?
              (assocMatches payload.uuid) with
        | some a =>
          rw [handle_skip raw classes settings rt payload now parsed other
            a hrt hparse hO (by rw [hrevEq, hR]) (by rw [hcurEq, hC])]
          simp
        | none =>
          cases classes with
          | nil =>
            rw [handle_config_error raw [] settings rt payload now parsed
              other _ hrt hparse hO (by rw [hrevEq, hR])
              (by rw [hcurEq, hC]) rfl]
            simp
          | cons c rest =>
            cases rest with
            | nil =>
              rw [handle_success raw [c] settings rt payload now parsed
                other c hrt hparse hO (by rw [hrevEq, hR])
                (by rw [hcurEq, hC]) rfl]
              simp
            | cons d rest₂ =>
              rw [handle_config_error raw (c :: d :: rest₂) settings rt
                payload now parsed other _ hrt hparse hO
                (by rw [hrevEq, hR]) (by rw [hcurEq, hC]) rfl]
              simp

/-- C8 counterexample: a raw response that is valid in every respect except
that its engagement has no primary id fails snapshot validation, and the
handler returns BAIL_VALIDATION_ERROR — so the claim that the primary id is
optional is false on the code (`primary_uuid: UUID` is required). -/
theorem c8_counterexample :
    parseResult (mkRaw 1 [egOtherUnit] (some []) none) = .error () ∧
    handle_engagement_update (mkRaw 1 [egOtherUnit] (some []) none) [7]
      egLive .EDIT egPayload egNow =
      .ok ({ action := .BAIL_VALIDATION_ERROR }, []) :=
  ⟨rfl, rfl⟩

/-- C8 amended: the engagement's primary id is required by the snapshot
model — every raw response whose engagement lacks it (null/absent) fails
validation and produces the BAIL_VALIDATION_ERROR outcome, with no
write. -/
theorem c8_amended_primary_required
    (raw : RawResult) (classes : List UUID) (settings : Settings)
    (rt : RequestType) (payload : PayloadType) (now : DateTime)
    (hrt : rt ≠ .TERMINATE)
    (h : ∃ el ∈ raw.engagements, ∃ eng ∈ el.objects,
      eng.primary_uuid = none) :
    handle_engagement_update raw classes settings rt payload now =
      .ok ({ action := .BAIL_VALIDATION_ERROR }, []) := by
  obtain ⟨el, hel, eng, heng, hp⟩ := h
  exact handle_validation_error raw classes settings rt payload now () hrt
    (parseResult_error_of_violation raw
      (Or.inr ⟨el, hel, Or.inr ⟨eng, heng, Or.inr (Or.inl hp)⟩⟩))

/-- C9: when the `classes` response for the association-type user-key does
not contain exactly one class id, the lookup raises a `ValueError` naming
the user-key (propagated by the handler to its caller, never folded into a
returned outcome); when exactly one class matches, its id is returned. -/
theorem c9_association_type_lookup_fatal
    (association_type : String) (classes : List UUID) :
    ((∀ c : UUID, classes ≠ [c]) →
      _get_association_type_uuid association_type classes =
        .error (.valueError
          ("could not find class UUID for class with user_key=" ++
            association_type)))
    ∧ (∀ c : UUID, classes = [c] →
        _get_association_type_uuid association_type classes = .ok c)
    ∧ ∀ (raw : RawResult) (settings : Settings) (rt : RequestType)
        (payload : PayloadType) (now : DateTime) (parsed : _Result)
        (other : _OrgUnit),
        rt ≠ .TERMINATE →
        parseResult raw = .ok parsed →
        find_related_unit (relatedUnitsOf parsed)
          (currentOrgUnitOf parsed) = some other →
        find_current_association payload.uuid
          (_get_association_list (some other.associations)) = .ok none →
        find_current_association payload.uuid
          (_get_association_list (currentOrgUnitOf parsed).associations) =
            .ok none →
        (∀ c : UUID, classes ≠ [c]) →
        handle_engagement_update raw classes settings rt payload now =
          .error (.valueError
            ("could not find class UUID for class with user_key=" ++
              settings.association_type)) := by
  have herr : ∀ (key : String), (∀ c : UUID, classes ≠ [c]) →
      _get_association_type_uuid key classes =
        .error (.valueError
          ("could not find class UUID for class with user_key=" ++ key)) := by
    intro key h
    cases classes with
    | nil => rfl
    | cons c rest =>
      cases rest with
      | nil => exact absurd rfl (h c)
      | cons d rest₂ => rfl
  refine ⟨herr association_type, ?_, ?_⟩
  · rintro c rfl
    rfl
  · intro raw settings rt payload now parsed other hrt hparse hother hrev
      hcur hne
    exact handle_config_error raw classes settings rt payload now parsed
      other _ hrt hparse hother hrev hcur
      (herr settings.association_type hne)

/-- C10 counterexample: an engagement whose `objects` list carries two
employee entries yields two payloads, not one — so "exactly one payload per
existing engagement" is false on the code (the producer yields one payload
per (engagement, objects-entry) pair). -/
theorem c10_counterexample :
    (⟨[⟨200, [⟨100⟩, ⟨101⟩]⟩]⟩ : _EngagementResult).engagements.length = 1 ∧
    get_bulk_update_payloads ⟨[⟨200, [⟨100⟩, ⟨101⟩]⟩]⟩ egNow =
      [⟨100, 200, egNow⟩, ⟨101, 200, egNow⟩] :=
  ⟨rfl, rfl⟩

/-- C10 amended: the bulk producer yields one payload per
(engagement, employee-object) pair of the platform-wide listing; in
particular, when every listed engagement carries exactly one employee
object, it yields exactly one payload per engagement, with that
engagement's id as the object id and its employee's id as the employee
id. -/
theorem c10_amended_one_payload_per_engagement
    (res : _EngagementResult) (now : DateTime)
    (h : ∀ g ∈ res.engagements, ∃ emp, g.objects = [emp]) :
    get_bulk_update_payloads res now = res.engagements.map (fun g =>
      { uuid := (g.objects.headD default).employee_uuid,
        object_uuid := g.uuid, time := now }) := by
  obtain ⟨l⟩ := res
  exact bulk_map_of_singletons now l h

/-! ## Witnesses -/

/-- C1 witness: both units hold an association for employee 100; the
handler bails with the reverse-association outcome. -/
theorem c1_witness :
    (∃ a ∈ egOtherUnitMatch.associations, assocMatches egPayload.uuid a) ∧
    handle_engagement_update
      (mkRaw 1 [egOtherUnitMatch] (some [egMatchAssoc]) (some 13)) [7]
      egLive .EDIT egPayload egNow =
      .ok ({ action := .BAIL_FOUND_REVERSE_ASSOCIATION }, []) :=
  ⟨by decide,
    (c1_reverse_guard_precedes_current_guard
      (mkRaw 1 [egOtherUnitMatch] (some [egMatchAssoc]) (some 13)) [7]
      egLive .EDIT egPayload egNow
      (mkParsed 1 [egOtherUnitMatch] (some [egMatchAssoc]) 13)
      egOtherUnitMatch (by decide) rfl rfl (by decide) (by decide)).1
      (by decide)⟩

/-- C2 witness: a snapshot passing all guards yields the success outcome. -/
theorem c2_witness :
    parseResult (mkRaw 1 [egOtherUnit] (some []) (some 13)) =
      .ok (mkParsed 1 [egOtherUnit] (some []) 13) ∧
    ∃ r ws,
      handle_engagement_update (mkRaw 1 [egOtherUnit] (some []) (some 13))
        [7] egDry .EDIT egPayload egNow = .ok (r, ws) ∧
      r.action = .SUCCESS_PROCESSED_ENGAGEMENT := by
  refine ⟨rfl, ?_⟩
  obtain ⟨r, ws, hrw, hact, -⟩ := c2_success_payload_fields
    (mkRaw 1 [egOtherUnit] (some []) (some 13)) [7] egDry .EDIT egPayload
    egNow (mkParsed 1 [egOtherUnit] (some []) 13) egOtherUnit 7
    (by decide) rfl rfl rfl rfl rfl
  exact ⟨r, ws, hrw, hact⟩

/-- C3 witness: concrete live success run with its two ordered writes. -/
theorem c3_witness :
    handle_engagement_update (mkRaw 1 [egOtherUnit] (some []) (some 13))
      [7] egLive .EDIT egPayload egNow = .ok (egResW, egWsW) ∧
    ((egResW.action = .SUCCESS_PROCESSED_ENGAGEMENT →
      (egLive.dry_run = true → egWsW = []) ∧
      (egLive.dry_run = false →
        ∃ a e, egResW.association = some a ∧ egResW.engagement = some e ∧
          egWsW = [.uploadAssociation a, .uploadEngagementEdit e]))
    ∧ (egResW.action ≠ .SUCCESS_PROCESSED_ENGAGEMENT → egWsW = [])) :=
  ⟨rfl,
    c3_write_trace (mkRaw 1 [egOtherUnit] (some []) (some 13)) [7] egLive
      .EDIT egPayload egNow egResW egWsW rfl⟩

/-- C4 witness: a related list holding only the current unit's id bails;
a related list [unit 1, unit 2] under current unit 1 resolves unit 2 as
the first differing unit. -/
theorem c4_witness :
    handle_engagement_update (mkRaw 1 [⟨1, []⟩] (some []) (some 13)) [7]
      egLive .EDIT egPayload egNow =
      .ok ({ action := .BAIL_NO_RELATED_ORG_UNITS }, []) ∧
    find_related_unit
      (relatedUnitsOf (mkParsed 1 [⟨1, []⟩, egOtherUnit] (some []) 13))
      (currentOrgUnitOf (mkParsed 1 [⟨1, []⟩, egOtherUnit] (some []) 13)) =
      some egOtherUnit := by
  constructor
  · exact (c4_other_unit_is_first_differing
      (mkRaw 1 [⟨1, []⟩] (some []) (some 13)) [7] egLive .EDIT egPayload
      egNow (mkParsed 1 [⟨1, []⟩] (some []) 13) (by decide) rfl).1
      (by decide)
  · exact ((c4_other_unit_is_first_differing
      (mkRaw 1 [⟨1, []⟩, egOtherUnit] (some []) (some 13)) [7] egLive
      .EDIT egPayload egNow
      (mkParsed 1 [⟨1, []⟩, egOtherUnit] (some []) 13) (by decide)
      rfl).2 egOtherUnit).mpr
      ⟨by decide, [⟨1, []⟩], [], rfl, by decide⟩

/-- C5 witness: a live first call succeeds; a second snapshot reflecting
its writes (engagement now in unit 2, marker association in unit 1) makes
the second call bail with the reverse-association outcome. -/
theorem c5_witness :
    handle_engagement_update (mkRaw 1 [egOtherUnit] (some []) (some 13))
      [7] egLive .EDIT egPayload egNow = .ok (egResW, egWsW) ∧
    handle_engagement_update
      (mkRaw 2 [⟨1, [egMatchAssoc]⟩] (some []) (some 13)) [7] egLive .EDIT
      egPayload egNow =
      .ok ({ action := .BAIL_FOUND_REVERSE_ASSOCIATION }, []) :=
  ⟨rfl,
    c5_second_invocation_skips
      (mkRaw 1 [egOtherUnit] (some []) (some 13))
      (mkRaw 2 [⟨1, [egMatchAssoc]⟩] (some []) (some 13)) [7] [7] egLive
      .EDIT .EDIT egPayload egNow egNow
      (mkParsed 2 [⟨1, [egMatchAssoc]⟩] (some []) 13) ⟨1, [egMatchAssoc]⟩
      egResW egWsW rfl rfl rfl (by decide) rfl rfl
      ⟨egAssocW, rfl, by decide⟩ (by decide)⟩

/-- C6 witness: an empty engagement list yields the validation-error
outcome with no write. -/
theorem c6_witness :
    violatesCardinality ⟨[]⟩ ∧
    handle_engagement_update ⟨[]⟩ [7] egLive .EDIT egPayload egNow =
      .ok ({ action := .BAIL_VALIDATION_ERROR }, []) :=
  ⟨Or.inl rfl,
    c6_cardinality_violation_is_validation_error ⟨[]⟩ [7] egLive .EDIT
      egPayload egNow (by decide) (Or.inl rfl)⟩

/-- C7 amended witness: with every association carrying an employee, the
handler does not raise the index error. -/
theorem c7_witness :
    (∀ u ∈ relatedUnitsOf (mkParsed 1 [egOtherUnitMatch] (some []) 13),
      ∀ a ∈ u.associations, a.employee ≠ []) ∧
    handle_engagement_update
      (mkRaw 1 [egOtherUnitMatch] (some []) (some 13)) [7] egLive .EDIT
      egPayload egNow ≠ .error .indexError :=
  ⟨by decide,
    c7_amended_guards_safe_when_employees_present
      (mkRaw 1 [egOtherUnitMatch] (some []) (some 13)) [7] egLive .EDIT
      egPayload egNow (mkParsed 1 [egOtherUnitMatch] (some []) 13) rfl
      (by decide) (by decide)⟩

/-- C8 amended witness: an engagement without a primary id yields the
validation-error outcome. -/
theorem c8_witness :
    (∃ el ∈ (mkRaw 1 [egOtherUnit] (some []) none).engagements,
      ∃ eng ∈ el.objects, eng.primary_uuid = none) ∧
    handle_engagement_update (mkRaw 1 [egOtherUnit] (some []) none) [7]
      egLive .EDIT egPayload egNow =
      .ok ({ action := .BAIL_VALIDATION_ERROR }, []) :=
  ⟨by decide,
    c8_amended_primary_required (mkRaw 1 [egOtherUnit] (some []) none) [7]
      egLive .EDIT egPayload egNow (by decide) (by decide)⟩

/-- C9 witness: an empty classes response raises the value error; a
single-class response resolves to its id. -/
theorem c9_witness :
    _get_association_type_uuid "assoc" [] =
      .error (.valueError
        ("could not find class UUID for class with user_key=" ++
          "assoc")) ∧
    _get_association_type_uuid "assoc" [7] = .ok 7 :=
  ⟨(c9_association_type_lookup_fatal "assoc" []).1 (by simp),
    (c9_association_type_lookup_fatal "assoc" [7]).2.1 7 rfl⟩

/-- C10 amended witness: a listing with one engagement carrying one
employee object yields exactly one payload. -/
theorem c10_witness :
    (∀ g ∈ (⟨[⟨200, [⟨100⟩]⟩]⟩ : _EngagementResult).engagements,
      ∃ emp, g.objects = [emp]) ∧
    get_bulk_update_payloads ⟨[⟨200, [⟨100⟩]⟩]⟩ egNow =
      [⟨100, 200, egNow⟩] := by
  have h : ∀ g ∈ (⟨[⟨200, [⟨100⟩]⟩]⟩ : _EngagementResult).engagements,
      ∃ emp, g.objects = [emp] := by
    intro g hg
    obtain rfl : g = ⟨200, [⟨100⟩]⟩ := List.mem_singleton.mp hg
    exact ⟨⟨100⟩, rfl⟩
  exact ⟨h,
    (c10_amended_one_payload_per_engagement ⟨[⟨200, [⟨100⟩]⟩]⟩ egNow
      h).trans rfl⟩

end EngagementUpdater
